import Mathlib

/-!
Shallow embedding of the Cus_onboard client (src/src/hooks/useAuth.tsx,
src/src/lib/supabase.ts with its configuration validator, and
src/src/utils/network-diagnostic.ts), together with theorems settling the
frozen claims about it.

Conventions of the embedding:
* Timestamps (`Date.now()`, ISO strings compared with `>`) are modelled as
  natural-number milliseconds; comparing ISO-8601 strings of the same clock
  agrees with comparing the underlying instants.
* Database tables are lists of records; an insert appends, an update maps
  over the rows.
* A JavaScript function that can `throw` is modelled as returning
  `Except String α`; a `try/catch` that swallows the failure turns the
  `.error` case into the caught result.
* `Math.random()` is modelled by an explicit draw `k < 900000`, the
  discretization of `Math.floor(100000 + Math.random() * 900000)`.
* Substring tests (`String.prototype.includes`) are implemented on `List
  Char` so that every definition reduces inside the kernel.
-/

namespace CusOnboard

/-! ## String helpers (model of `String.prototype.includes` and the regexes) -/

/-- Does `pat` occur starting at the head of `l`? -/
def charsStartWith : List Char → List Char → Bool
  | [], _ => true
  | _ :: _, [] => false
  | p :: ps, c :: cs => p == c && charsStartWith ps cs

/-- Does `pat` occur anywhere inside `l`? Model of `String.prototype.includes`. -/
def charsContain (pat : List Char) : List Char → Bool
  | [] => pat.isEmpty
  | c :: cs => charsStartWith pat (c :: cs) || charsContain pat cs

/-- Model of `s.includes(pat)` from JavaScript. -/
def strContains (s pat : String) : Bool :=
  charsContain pat.data s.data

/-! ## Configuration validator (src/src/utils/supabase-config-validator.ts) -/

structure SupabaseConfig where
  url : String
  anonKey : String
deriving Repr, DecidableEq

structure ConfigValidationResult where
  isValid : Bool
  errors : List String
  warnings : List String
deriving Repr, DecidableEq

/-- Character class `[a-z0-9-]` of the URL regex, applied after lowercasing
(the regex carries the `i` flag). -/
def isSubdomainChar (c : Char) : Bool :=
  ('a' ≤ c && c ≤ 'z') || c.isDigit || c == '-'

/-- Model of `config.url.match(/^https:\/\/[a-z0-9-]+\.supabase\.co$/i)`:
after lowercasing, the string is `https://` ++ a nonempty run of
subdomain characters ++ `.supabase.co`. -/
def matchesSupabaseUrlFormat (s : String) : Bool :=
  let l := (s.data.map Char.toLower)
  let head := "https://".data
  let tail := ".supabase.co".data
  charsStartWith head l &&
    (let r := l.drop 8
     decide (12 < r.length) && (r.drop (r.length - 12) == tail) &&
       (r.take (r.length - 12)).all isSubdomainChar)

/-- Character class `[A-Za-z0-9-_]` of the JWT-shape regex. -/
def isJwtChar (c : Char) : Bool :=
  c.isAlphanum || c == '-' || c == '_'

/-- Split a character list at `.` separators (enough of `String.split` for the
JWT-shape regex, which admits no `.` inside a part). -/
def splitOnDot : List Char → List (List Char)
  | [] => [[]]
  | c :: cs =>
    if c == '.' then [] :: splitOnDot cs
    else
      match splitOnDot cs with
      | [] => [[c]]
      | p :: ps => (c :: p) :: ps

/-- Model of `config.anonKey.match(/^[A-Za-z0-9-_]+\.[A-Za-z0-9-_]+\.[A-Za-z0-9-_]*$/)`:
exactly three dot-separated parts, the first two nonempty, all characters in
the JWT class. -/
def matchesJwtShape (s : String) : Bool :=
  match splitOnDot s.data with
  | [a, b, c] =>
    !a.isEmpty && !b.isEmpty && a.all isJwtChar && b.all isJwtChar && c.all isJwtChar
  | _ => false

/-- Model of `validateSupabaseConfig` (supabase-config-validator.ts, lines
196-238): six checks run in order, each pushing an error (invalidating) or a
warning onto the result. A JavaScript string is falsy exactly when empty. -/
def validateSupabaseConfig (config : SupabaseConfig) : ConfigValidationResult :=
  let r : ConfigValidationResult := { isValid := true, errors := [], warnings := [] }
  let r := if config.url == "" then
      { r with errors := r.errors ++ ["Supabase URL is missing"], isValid := false }
    else r
  let r := if config.anonKey == "" then
      { r with errors := r.errors ++ ["Supabase anon key is missing"], isValid := false }
    else r
  let r := if config.url != "" && !matchesSupabaseUrlFormat config.url then
      { r with
        errors := r.errors ++
          ["Invalid Supabase URL format. Expected format: https://your-project.supabase.co"],
        isValid := false }
    else r
  let r := if config.url != "" && strContains config.url "obbycwigtdzgnyapbdjl" then
      { r with
        errors := r.errors ++
          ["Using placeholder Supabase URL. Please update with your actual Supabase project URL."],
        isValid := false }
    else r
  let r := if config.anonKey != "" && !matchesJwtShape config.anonKey then
      { r with
        warnings := r.warnings ++
          ["Supabase anon key does not appear to be a valid JWT token format"] }
    else r
  let r := if config.anonKey != "" && decide (config.anonKey.length < 50) then
      { r with warnings := r.warnings ++ ["Supabase anon key seems unusually short"] }
    else r
  r

/-- The constructed client (model of the value returned by `createClient`). -/
structure SupabaseClient where
  url : String
  anonKey : String
deriving Repr, DecidableEq

/-- Model of module initialization in src/src/lib/supabase.ts (lines 17-30):
validate, throw on an invalid configuration, and only otherwise construct the
client. -/
def initSupabase (config : SupabaseConfig) : Except String SupabaseClient :=
  let validation := validateSupabaseConfig config
  if validation.isValid then
    Except.ok { url := config.url, anonKey := config.anonKey }
  else
    Except.error
      ("Invalid Supabase configuration: " ++ String.intercalate ", " validation.errors)

/-! ## Network error formatting (src/src/utils/network-diagnostic.ts, lines 66-87) -/

/-- Model of `formatNetworkError`. The argument is the `message` of the thrown
object when it has one (`none` models a thrown value without a message). -/
def formatNetworkError (msg : Option String) : String :=
  match msg with
  | none => "An unknown network error occurred"
  | some m =>
    if strContains m "ERR_CONNECTION_CLOSED" then
      "Connection was closed unexpectedly. This might be due to network issues or Supabase service problems."
    else if strContains m "ERR_CONNECTION_REFUSED" then
      "Connection was refused. Please check if the Supabase URL is correct."
    else if strContains m "ERR_NETWORK_CHANGED" then
      "Network connection changed. Please try again."
    else if strContains m "timeout" then
      "Request timed out. Please check your network connection."
    else if strContains m "404" then
      "The requested resource was not found. Please check your Supabase URL configuration."
    else m

/-! ## refreshAuthState retry logic (src/src/hooks/useAuth.tsx, lines 90-149) -/

/-- The network/connection/fetch signatures `refreshAuthState` tests the
session error message against (lines 107-110). -/
def isNetworkErrorMsg (m : String) : Bool :=
  strContains m "Network" || strContains m "fetch" ||
    strContains m "connection" || strContains m "ERR_CONNECTION_CLOSED"

/-- `const maxRetries = 3` (line 91). -/
def maxRetries : Nat := 3

/-- How one call of `refreshAuthState` can fail (or not): `getSession`
resolves with an error value, or some awaited step throws (the `catch` block;
`fetchProfile` failures land here too), or nothing fails. -/
inductive SessionFetchResult where
  | ok : SessionFetchResult
  | errValue (msg : String) : SessionFetchResult
  | thrown (msg : String) : SessionFetchResult
deriving Repr, DecidableEq

/-- The control decision one invocation of `refreshAuthState` takes. `retry`
carries the next attempt number and the `setTimeout` delay; `proceed` means
the function goes on to apply the session (the flag records whether the
non-retried session error was logged); `finish` is the exhausted `catch`
path: loading is stopped and the carried error, if any, is displayed. -/
inductive RefreshAction where
  | retry (nextAttempt delayMs : Nat) : RefreshAction
  | proceed (warned : Bool) : RefreshAction
  | finish (errorSet : Option String) : RefreshAction
deriving Repr, DecidableEq

/-- Model of the retry decision of `refreshAuthState(attempt)` (lines
104-147). A session error value retries only under the signature test; a
thrown failure retries whenever attempts remain, and otherwise stops loading,
surfacing the formatted error only when it does not look network-related. -/
def refreshStep (attempt : Nat) (res : SessionFetchResult) : RefreshAction :=
  match res with
  | SessionFetchResult.ok => RefreshAction.proceed false
  | SessionFetchResult.errValue m =>
    if attempt < maxRetries && isNetworkErrorMsg m then
      RefreshAction.retry (attempt + 1) (attempt * 2000)
    else
      RefreshAction.proceed true
  | SessionFetchResult.thrown m =>
    if attempt < maxRetries then
      RefreshAction.retry (attempt + 1) (attempt * 2000)
    else
      RefreshAction.finish
        (let formatted := formatNetworkError (some m)
         if !strContains formatted "Network" && !strContains formatted "connection" then
           some formatted
         else none)

/-- Does the action stop the loading flag (`setLoading(false)` of the
exhausted catch path)? -/
def stopsLoading : RefreshAction → Bool
  | RefreshAction.finish _ => true
  | _ => false

/-- The visible error the action sets, if any. -/
def errorSetBy : RefreshAction → Option String
  | RefreshAction.finish e => e
  | _ => none

/-! ## OTP data model (table `otp_verifications`; src/src/lib/supabase.ts
`OtpVerification`, src/src/hooks/useAuth.tsx lines 583-673) -/

structure OtpRecord where
  id : Nat
  user_id : String
  phone : Option String
  email : Option String
  otp_code : String
  otp_type : String
  expires_at : Nat
  is_verified : Bool
  verified_at : Option Nat
  created_at : Nat
deriving Repr, DecidableEq

/-- Model of `Math.floor(100000 + Math.random() * 900000)` (line 590): the
uniform real draw is discretized into `k < 900000`. -/
def generateOtpCode (k : Nat) : Nat :=
  100000 + k

/-- Ten minutes in milliseconds (line 593). -/
def otpExpiryMs : Nat := 10 * 60 * 1000

/-- Model of `sendOtp` (lines 583-622). `insertErr` injects a failure of the
insert; the `catch` turns any such failure into a `false` result. The guard
`if (!user) throw` stands before the `try`, so it propagates. -/
def sendOtp (user : Option String) (db : List OtpRecord) (recId now k : Nat)
    (phone email t : String) (insertErr : Option String) :
    Except String (Bool × List OtpRecord) :=
  match user with
  | none => Except.error "No user logged in"
  | some uid =>
    let code := Nat.repr (generateOtpCode k)
    let expiresAt := now + otpExpiryMs
    let newRec : OtpRecord :=
      { id := recId
        user_id := uid
        phone := if t == "phone" then some phone else none
        email := if t == "email" then some email else none
        otp_code := code
        otp_type := t
        expires_at := expiresAt
        is_verified := false
        verified_at := none
        created_at := now }
    match insertErr with
    | some _ => Except.ok (false, db)
    | none => Except.ok (true, db ++ [newRec])

/-- The row filter of the `verifyOtp` query (lines 634-637): same user, same
channel, `expires_at` strictly in the future, not yet verified. -/
def eligibleOtp (uid t : String) (now : Nat) (r : OtpRecord) : Bool :=
  r.user_id == uid && r.otp_type == t && decide (now < r.expires_at) &&
    r.is_verified == false

/-- Of two rows, the one `order('created_at', descending)` ranks first. -/
def pickLatest (a b : OtpRecord) : OtpRecord :=
  if a.created_at < b.created_at then b else a

/-- `order by created_at descending, limit 1`: the row with the greatest
`created_at` (the earliest such row on ties), or `none` on an empty table. -/
def mostRecentOtp : List OtpRecord → Option OtpRecord
  | [] => none
  | r :: rs => some (rs.foldl pickLatest r)

/-- The whole lookup of lines 631-640. `.single()` errors out on zero rows,
modelled by the `none` result. -/
def otpLookup (db : List OtpRecord) (uid t : String) (now : Nat) : Option OtpRecord :=
  mostRecentOtp (db.filter (eligibleOtp uid t now))

/-- The `update({is_verified: true, verified_at}).eq('id', i)` of lines
652-658. -/
def markVerified (db : List OtpRecord) (i now : Nat) : List OtpRecord :=
  db.map fun x =>
    if x.id == i then { x with is_verified := true, verified_at := some now } else x

/-- The body of the `try` block of `verifyOtp` (lines 627-668): lookup, throw
`No valid OTP found` when the lookup fails, compare codes, mark verified on a
match (an `updateErr` failure of that update is rethrown), report `false` on a
mismatch. -/
def verifyOtpInner (uid : String) (db : List OtpRecord) (t : String) (now : Nat)
    (otp : String) (updateErr : Option String) :
    Except String (Bool × List OtpRecord) :=
  match otpLookup db uid t now with
  | none => Except.error "No valid OTP found"
  | some r =>
    if r.otp_code == otp then
      match updateErr with
      | some e => Except.error e
      | none => Except.ok (true, markVerified db r.id now)
    else
      Except.ok (false, db)

/-- Model of `verifyOtp` (lines 624-673): the missing-user guard throws past
the `try`; every failure inside the `try` is caught and reported as `false`
with the table unchanged. -/
def verifyOtp (user : Option String) (db : List OtpRecord) (t : String) (now : Nat)
    (otp : String) (updateErr : Option String) :
    Except String (Bool × List OtpRecord) :=
  match user with
  | none => Except.error "No user logged in"
  | some uid =>
    match verifyOtpInner uid db t now otp updateErr with
    | Except.error _ => Except.ok (false, db)
    | Except.ok r => Except.ok r

/-! ## Profiles (table `profiles`; src/src/hooks/useAuth.tsx lines 353-452) -/

structure Profile where
  id : Nat
  user_id : String
  email : String
  full_name : Option String
deriving Repr, DecidableEq

/-- The `profiles` table together with the id the next insert receives. -/
structure ProfilesDb where
  rows : List Profile
  nextId : Nat
deriving Repr, DecidableEq

/-- Model of `select('*').eq('user_id', userId).maybeSingle()` (lines
358-362): the row scoped to the user, `none` when absent. -/
def findProfile (db : ProfilesDb) (uid : String) : Option Profile :=
  (db.rows.filter fun p => p.user_id == uid).head?

/-- The row `createProfile` inserts (lines 420-427): seeded with the user
identifier and the verified email of `supabase.auth.getUser()`. -/
def insertedProfileRow (db : ProfilesDb) (uid userEmail : String) : Profile :=
  { id := db.nextId, user_id := uid, email := userEmail, full_name := none }

/-- The table after that insert appends the seeded row. -/
def dbAfterInsert (db : ProfilesDb) (uid userEmail : String) : ProfilesDb :=
  { rows := db.rows ++ [insertedProfileRow db uid userEmail], nextId := db.nextId + 1 }

mutual

/-- Model of the success path of `fetchProfile` (lines 353-406): adopt the
row when one exists, otherwise fall through to `createProfile`. The mutual
recursion of the source (`createProfile` re-fetches when the insert returns
no row) is made structural by fuel; the source call sites always reach a row
within the fuel spent here. Returns the updated table and the adopted
profile (`setProfile`). -/
def fetchProfileFuel : Nat → ProfilesDb → String → String → Bool → ProfilesDb × Option Profile
  | 0, db, _, _, _ => (db, none)
  | fuel + 1, db, uid, userEmail, insertReturnsRow =>
    match findProfile db uid with
    | some p => (db, some p)
    | none => createProfileFuel fuel db uid userEmail insertReturnsRow

/-- Model of `createProfile` (lines 408-452): insert a row seeded with the
user identifier and email; when the driver returns the created row
(`insertReturnsRow`), adopt it directly, otherwise re-fetch
(`await fetchProfile(userId)` of line 443). -/
def createProfileFuel : Nat → ProfilesDb → String → String → Bool → ProfilesDb × Option Profile
  | fuel, db, uid, userEmail, insertReturnsRow =>
    let newRow : Profile := insertedProfileRow db uid userEmail
    let db2 : ProfilesDb := dbAfterInsert db uid userEmail
    if insertReturnsRow then (db2, some newRow)
    else fetchProfileFuel fuel db2 uid userEmail insertReturnsRow

end

/-- `fetchProfile` as called by the orchestrator: fuel 2 covers the deepest
source chain (fetch, create, re-fetch). `userEmail` is the verified email of
`supabase.auth.getUser()`; `insertReturnsRow` is whether the insert returned
the created row. -/
def fetchProfile (db : ProfilesDb) (uid userEmail : String) (insertReturnsRow : Bool) :
    ProfilesDb × Option Profile :=
  fetchProfileFuel 2 db uid userEmail insertReturnsRow

/-- Model of `updateProfile` (lines 555-581): the missing-user guard throws
first; an update failure (`updErr`) is rethrown by the catch; on success the
matching rows are rewritten with the updates and the profile re-fetched. -/
def updateProfile (user : Option String) (db : ProfilesDb) (updates : Profile → Profile)
    (updErr : Option String) (userEmail : String) (insertReturnsRow : Bool) :
    Except String (ProfilesDb × Option Profile) :=
  match user with
  | none => Except.error "No user logged in"
  | some uid =>
    match updErr with
    | some e => Except.error e
    | none =>
      let db2 : ProfilesDb :=
        { db with rows := db.rows.map fun p => if p.user_id == uid then updates p else p }
      Except.ok (fetchProfile db2 uid userEmail insertReturnsRow)

/-! ## Welcome notification and signUp (src/src/hooks/useAuth.tsx lines
454-514 and 675-713) -/

/-- A row of the `notifications` table; the free-text `message` constant of
line 698 is elided, being irrelevant to every claim. -/
structure Notification where
  user_id : String
  title : String
  type : String
  category : String
deriving Repr, DecidableEq

/-- What `supabase.auth.getSession()` reports at notification-send time. -/
inductive SessionState where
  | errorState (msg : String) : SessionState
  | noUser : SessionState
  | activeUser (uid : String) : SessionState
deriving Repr, DecidableEq

/-- The record inserted by `sendWelcomeNotification` (lines 693-701). -/
def welcomeNotification (uid : String) : Notification :=
  { user_id := uid
    title := "🎉 Welcome to Our Investment Platform!"
    type := "success"
    category := "onboarding" }

/-- Model of `sendWelcomeNotification` (lines 675-713): a session error or a
missing user returns early; an insert failure (`insertErr`) is logged, not
thrown; nothing in the body escapes the surrounding catch, so the function
always returns the (possibly unchanged) notifications table. -/
def sendWelcomeNotification (uid : String) (sess : SessionState)
    (insertErr : Option String) (db : List Notification) : List Notification :=
  match sess with
  | SessionState.errorState _ => db
  | SessionState.noUser => db
  | SessionState.activeUser _ =>
    match insertErr with
    | some _ => db
    | none => db ++ [welcomeNotification uid]

/-- The profile reconciliation inside `signUp` (lines 481-499): when a row
for the user exists, rewrite its `full_name`; otherwise leave the table
alone. -/
def signUpReconcileProfile (rows : List Profile) (uid fullName : String) : List Profile :=
  match (rows.filter fun p => p.user_id == uid).head? with
  | some _ => rows.map fun p => if p.user_id == uid then { p with full_name := some fullName } else p
  | none => rows

/-- Model of `signUp` (lines 454-514) from the auth result on: an auth error
is rethrown; on success the profile is reconciled and the welcome
notification attempted, each step wrapped in its own swallowing catch. -/
def signUp (authErr : Option String) (uid fullName : String) (rows : List Profile)
    (sess : SessionState) (notifInsertErr : Option String)
    (notifs : List Notification) :
    Except String (List Profile × List Notification) :=
  match authErr with
  | some e => Except.error e
  | none =>
    let rows2 := signUpReconcileProfile rows uid fullName
    let notifs2 := sendWelcomeNotification uid sess notifInsertErr notifs
    Except.ok (rows2, notifs2)

/-! ## The auth-change handler (src/src/hooks/useAuth.tsx lines 244-297) -/

/-- The session object the auth-change callback receives (its user may be
absent; a `null` session is `Option.none` at the call site). -/
structure SessionS where
  user : Option String
deriving Repr, DecidableEq

/-- The orchestrator state the provider owns. -/
structure AuthState where
  user : Option String
  session : Option SessionS
  profile : Option Profile
  loading : Bool
  error : Option String
deriving Repr, DecidableEq

/-- Model of the `onAuthStateChange` handler body (lines 274-296): adopt the
session and its user; with a user, fetch the profile (its `finally` stops
loading; a thrown fetch failure, injected by `fetchErr`, sets the error);
without one, clear the profile, stop loading and clear the error. -/
def handleAuthChange (st : AuthState) (sess : Option SessionS) (db : ProfilesDb)
    (userEmail : String) (insertReturnsRow : Bool) (fetchErr : Option String) :
    AuthState × ProfilesDb :=
  let st1 := { st with session := sess, user := sess.bind SessionS.user }
  match sess.bind SessionS.user with
  | some uid =>
    match fetchErr with
    | some e => ({ st1 with loading := false, error := some e }, db)
    | none =>
      let r := fetchProfile db uid userEmail insertReturnsRow
      ({ st1 with profile := r.2, loading := false }, r.1)
  | none => ({ st1 with profile := none, loading := false, error := none }, db)

/-! ## Helper lemmas -/

/-- A string containing a nonempty pattern is itself nonempty. -/
theorem strContains_ne_empty {pat : String} (c : Char) (cs : List Char)
    (hp : pat.data = c :: cs) {s : String} (h : strContains s pat = true) :
    (s != "") = true := by
  cases hs : s.data with
  | nil =>
    exfalso
    have : s = "" := by
      cases s with | mk d => simp_all [String.ext_iff]
    rw [this] at h
    simp [strContains, charsContain, hp, List.isEmpty] at h
  | cons d ds =>
    have : ¬ (s = "") := by
      intro he
      rw [he] at hs
      simp at hs
    simpa using this

/-- The `isValid` flag of the validator depends only on the presence checks,
the URL format and the placeholder test, never on the key-shape or key-length
checks. -/
theorem validateSupabaseConfig_isValid (cfg : SupabaseConfig) :
    (validateSupabaseConfig cfg).isValid =
      (cfg.url != "" && cfg.anonKey != "" && matchesSupabaseUrlFormat cfg.url &&
       !strContains cfg.url "obbycwigtdzgnyapbdjl") := by
  unfold validateSupabaseConfig
  split_ifs with h1 h2 h3 h4 h5 h6 <;> simp_all

/-- A placeholder URL always lands the placeholder error in `errors`. -/
theorem config_placeholder_mem (cfg : SupabaseConfig)
    (h : strContains cfg.url "obbycwigtdzgnyapbdjl" = true) :
    "Using placeholder Supabase URL. Please update with your actual Supabase project URL."
      ∈ (validateSupabaseConfig cfg).errors := by
  have hne : (cfg.url != "") = true := strContains_ne_empty 'o' "bbycwigtdzgnyapbdjl".data rfl h
  unfold validateSupabaseConfig
  split_ifs with h1 h2 h3 h4 h5 h6 <;> simp_all

/-- A nonempty key failing the JWT-shape test lands the shape warning. -/
theorem config_jwt_warning_mem (cfg : SupabaseConfig)
    (hk : (cfg.anonKey != "") = true) (hj : matchesJwtShape cfg.anonKey = false) :
    "Supabase anon key does not appear to be a valid JWT token format"
      ∈ (validateSupabaseConfig cfg).warnings := by
  unfold validateSupabaseConfig
  split_ifs with h1 h2 h3 h4 h5 h6 <;> simp_all

/-- A nonempty key shorter than 50 characters lands the length warning. -/
theorem config_short_key_warning_mem (cfg : SupabaseConfig)
    (hk : (cfg.anonKey != "") = true) (hs : cfg.anonKey.length < 50) :
    "Supabase anon key seems unusually short" ∈ (validateSupabaseConfig cfg).warnings := by
  unfold validateSupabaseConfig
  split_ifs with h1 h2 h3 h4 h5 h6 <;> simp_all

/-- When validation fails, module initialization throws and no client value
is ever produced. -/
theorem initSupabase_invalid (cfg : SupabaseConfig)
    (h : (validateSupabaseConfig cfg).isValid = false) :
    ∀ c, initSupabase cfg ≠ Except.ok c := by
  intro c
  unfold initSupabase
  simp [h]

/-! ## Claim theorems -/

/-- C7: startup validation rejects a placeholder endpoint URL with a
configuration error and the client is never constructed on a failed
validation, while a key failing the JWT-shape or minimum-length check only
adds warnings — `isValid` is exactly the conjunction of the presence, format
and placeholder checks and never depends on the key-shape or key-length
tests. -/
theorem config_validation_policy (cfg : SupabaseConfig) :
    ((validateSupabaseConfig cfg).isValid =
      (cfg.url != "" && cfg.anonKey != "" && matchesSupabaseUrlFormat cfg.url &&
       !strContains cfg.url "obbycwigtdzgnyapbdjl")) ∧
    (strContains cfg.url "obbycwigtdzgnyapbdjl" = true →
      (validateSupabaseConfig cfg).isValid = false ∧
      "Using placeholder Supabase URL. Please update with your actual Supabase project URL."
        ∈ (validateSupabaseConfig cfg).errors) ∧
    ((validateSupabaseConfig cfg).isValid = false → ∀ c, initSupabase cfg ≠ Except.ok c) ∧
    ((cfg.anonKey != "") = true → matchesJwtShape cfg.anonKey = false →
      "Supabase anon key does not appear to be a valid JWT token format"
        ∈ (validateSupabaseConfig cfg).warnings) ∧
    ((cfg.anonKey != "") = true → cfg.anonKey.length < 50 →
      "Supabase anon key seems unusually short" ∈ (validateSupabaseConfig cfg).warnings) := by
  refine ⟨validateSupabaseConfig_isValid cfg, fun h => ⟨?_, config_placeholder_mem cfg h⟩,
    initSupabase_invalid cfg, config_jwt_warning_mem cfg, config_short_key_warning_mem cfg⟩
  rw [validateSupabaseConfig_isValid cfg, h]
  simp

/-- C2 counterexample: at attempt 1, a thrown failure whose text matches none
of the network signatures still gets a retry scheduled — the signature test
guards only the session-error-value path, not the catch path. -/
theorem refresh_retry_nonnetwork_cex :
    refreshStep 1 (SessionFetchResult.thrown "boom") = RefreshAction.retry 2 2000 ∧
    isNetworkErrorMsg "boom" = false := by
  exact ⟨rfl, rfl⟩

/-- C2 (amended): a session error value schedules a retry exactly when
attempts remain and its text matches the network signatures; a thrown
failure schedules a retry exactly when attempts remain, regardless of its
text; a successful fetch never schedules one. -/
theorem refresh_retry_policy (attempt : Nat) (m : String) :
    (refreshStep attempt (SessionFetchResult.errValue m) =
        RefreshAction.retry (attempt + 1) (attempt * 2000) ↔
      attempt < maxRetries ∧ isNetworkErrorMsg m = true) ∧
    (refreshStep attempt (SessionFetchResult.thrown m) =
        RefreshAction.retry (attempt + 1) (attempt * 2000) ↔ attempt < maxRetries) ∧
    (∀ n d, refreshStep attempt SessionFetchResult.ok ≠ RefreshAction.retry n d) := by
  refine ⟨?_, ?_, ?_⟩
  · by_cases ha : attempt < maxRetries
    · by_cases hb : isNetworkErrorMsg m = true
      · simp [refreshStep, ha, hb]
      · simp [refreshStep, ha, hb]
    · simp [refreshStep, ha]
  · by_cases ha : attempt < maxRetries
    · simp [refreshStep, ha]
    · simp [refreshStep, ha]
  · intro n d
    simp [refreshStep]

/-- C6: after three consecutive network-shaped thrown failures the
orchestrator retries after the first and second, and at the third it stops
loading, never schedules a fourth attempt, and sets a visible error exactly
when the formatted text contains neither of the network-looking markers. -/
theorem refresh_exhaustion_after_three (m1 m2 m3 : String)
    (h1 : isNetworkErrorMsg m1 = true) (h2 : isNetworkErrorMsg m2 = true)
    (h3 : isNetworkErrorMsg m3 = true) :
    refreshStep 1 (SessionFetchResult.thrown m1) = RefreshAction.retry 2 2000 ∧
    refreshStep 2 (SessionFetchResult.thrown m2) = RefreshAction.retry 3 4000 ∧
    stopsLoading (refreshStep 3 (SessionFetchResult.thrown m3)) = true ∧
    (∀ res n d, refreshStep 3 res ≠ RefreshAction.retry n d) ∧
    errorSetBy (refreshStep 3 (SessionFetchResult.thrown m3)) =
      (if !strContains (formatNetworkError (some m3)) "Network" &&
          !strContains (formatNetworkError (some m3)) "connection" then
        some (formatNetworkError (some m3))
      else none) := by
  refine ⟨rfl, rfl, rfl, ?_, rfl⟩
  intro res n d
  cases res with
  | ok => simp [refreshStep]
  | errValue m => simp [refreshStep, maxRetries]
  | thrown m => simp [refreshStep, maxRetries]

/-- C6 witness at three concrete network-shaped messages. -/
theorem refresh_exhaustion_after_three_witness :
    isNetworkErrorMsg "Network request failed" = true ∧
    stopsLoading (refreshStep 3 (SessionFetchResult.thrown "Network request failed")) = true ∧
    errorSetBy (refreshStep 3 (SessionFetchResult.thrown "Network request failed")) = none := by
  have h := refresh_exhaustion_after_three "Network request failed" "Network request failed"
    "Network request failed" (by decide) (by decide) (by decide)
  exact ⟨by decide, h.2.2.1, by decide⟩

/-- C3 counterexample: the code value 5 — the 6-digit string `000005` — is
outside the generator's support, and the smallest draw already yields the
leading-zero-free code `100000`: codes are not drawn from all 6-digit strings
including leading zeros. -/
theorem sendOtp_leading_zero_cex :
    ((∃ k, k < 900000 ∧ generateOtpCode k = 5) ↔ False) ∧
    sendOtp (some "u1") [] 1 0 0 "p" "e@x" "phone" none =
      Except.ok (true,
        [{ id := 1, user_id := "u1", phone := some "p", email := none,
           otp_code := "100000", otp_type := "phone", expires_at := 600000,
           is_verified := false, verified_at := none, created_at := 0 }]) := by
  constructor
  · constructor
    · rintro ⟨k, _, h⟩
      unfold generateOtpCode at h
      omega
    · exact False.elim
  · rfl

/-- C3 (amended): for a signed-in user the issued code is a 6-digit number
uniformly drawn from 100000-999999 — leading zeros never occur — the
persisted record carries an expiry exactly 10 minutes after issuance and the
requested channel with its contact value, and sendOtp only ever reports a
success/failure boolean (an insert failure is caught and reported as
`false`). -/
theorem sendOtp_issuance_spec (uid phone email t : String) (db : List OtpRecord)
    (recId now k : Nat) (hk : k < 900000) :
    100000 ≤ generateOtpCode k ∧ generateOtpCode k ≤ 999999 ∧
    (∀ n, 100000 ≤ n → n ≤ 999999 → n - 100000 < 900000 ∧ generateOtpCode (n - 100000) = n) ∧
    otpExpiryMs = 10 * 60 * 1000 ∧
    sendOtp (some uid) db recId now k phone email t none =
      Except.ok (true, db ++
        [{ id := recId, user_id := uid,
           phone := if t == "phone" then some phone else none,
           email := if t == "email" then some email else none,
           otp_code := Nat.repr (generateOtpCode k), otp_type := t,
           expires_at := now + otpExpiryMs, is_verified := false,
           verified_at := none, created_at := now }]) ∧
    (∀ e, sendOtp (some uid) db recId now k phone email t (some e) =
      Except.ok (false, db)) := by
  refine ⟨?_, ?_, ?_, rfl, rfl, fun e => rfl⟩
  · unfold generateOtpCode
    omega
  · unfold generateOtpCode
    omega
  · intro n hn1 hn2
    unfold generateOtpCode
    omega

/-- C3 witness at the concrete draw k = 0. -/
theorem sendOtp_issuance_spec_witness :
    0 < 900000 ∧
    sendOtp (some "u1") [] 1 0 0 "9990001112" "a@b.co" "phone" none =
      Except.ok (true,
        [{ id := 1, user_id := "u1", phone := some "9990001112", email := none,
           otp_code := Nat.repr (generateOtpCode 0), otp_type := "phone",
           expires_at := 0 + otpExpiryMs, is_verified := false,
           verified_at := none, created_at := 0 }]) := by
  have h := sendOtp_issuance_spec "u1" "9990001112" "a@b.co" "phone" [] 1 0 0 (by omega)
  exact ⟨by omega, h.2.2.2.2.1⟩

/-- C8: once signUp reaches the notification step, every notification
failure — a session error at send time, an unauthenticated user, a failing
insert — leaves the notifications table untouched and is discarded, and
signUp still returns successfully with the reconciled profile state; it
never rejects. -/
theorem signUp_welcome_fire_and_forget (uid fullName : String) (rows : List Profile)
    (sess : SessionState) (insErr : Option String) (notifs : List Notification) :
    signUp none uid fullName rows sess insErr notifs =
      Except.ok (signUpReconcileProfile rows uid fullName,
        sendWelcomeNotification uid sess insErr notifs) ∧
    (∀ m, sendWelcomeNotification uid (SessionState.errorState m) insErr notifs = notifs) ∧
    sendWelcomeNotification uid SessionState.noUser insErr notifs = notifs ∧
    (∀ m, sendWelcomeNotification uid sess (some m) notifs = notifs) ∧
    (∀ e, signUp none uid fullName rows sess insErr notifs ≠ Except.error e) := by
  refine ⟨rfl, fun m => rfl, rfl, fun m => ?_, fun e => ?_⟩
  · cases sess <;> rfl
  · simp [signUp]

/-- C9: with no signed-in user, updateProfile, sendOtp and verifyOtp all
reject with `No user logged in` whatever the database holds; with a user
signed in, sendOtp and verifyOtp never reject — every injected failure is
caught and reported as a `false` result. -/
theorem missing_user_guards (db : ProfilesDb) (odb : List OtpRecord)
    (updates : Profile → Profile) (updErr insErr vErr : Option String)
    (userEmail phone email t otp : String) (rr : Bool) (recId now k now2 : Nat) :
    updateProfile none db updates updErr userEmail rr = Except.error "No user logged in" ∧
    sendOtp none odb recId now k phone email t insErr = Except.error "No user logged in" ∧
    verifyOtp none odb t now2 otp vErr = Except.error "No user logged in" ∧
    (∀ uid, (sendOtp (some uid) odb recId now k phone email t insErr).isOk = true) ∧
    (∀ uid, (verifyOtp (some uid) odb t now2 otp vErr).isOk = true) := by
  refine ⟨rfl, rfl, rfl, fun uid => ?_, fun uid => ?_⟩
  · cases insErr <;> rfl
  · cases h : verifyOtpInner uid odb t now2 otp vErr <;>
      simp [verifyOtp, h, Except.isOk, Except.toBool]

/-- C10: whenever the auth-change handler sees a session carrying no user,
the resulting orchestrator state has no profile, loading off and no error —
in particular a previously displayed error is cleared. -/
theorem authChange_no_user_clears_state (st : AuthState) (sess : Option SessionS)
    (db : ProfilesDb) (userEmail : String) (rr : Bool) (fetchErr : Option String)
    (h : sess.bind SessionS.user = none) :
    handleAuthChange st sess db userEmail rr fetchErr =
      ({ user := none, session := sess, profile := none, loading := false,
         error := none }, db) := by
  unfold handleAuthChange
  rw [h]

/-- C10 witness: a signed-out event wipes a previously displayed error. -/
theorem authChange_no_user_clears_state_witness :
    (Option.bind (none : Option SessionS) SessionS.user = none) ∧
    handleAuthChange
        { user := some "u", session := some { user := some "u" }, profile := none,
          loading := true, error := some "boom" }
        none { rows := [], nextId := 0 } "e@x" true none =
      ({ user := none, session := none, profile := none, loading := false,
         error := none }, { rows := [], nextId := 0 }) := by
  exact ⟨rfl, authChange_no_user_clears_state _ _ _ _ _ _ rfl⟩

/-- C4: for a user with no profile row, fetch-or-create inserts exactly one
row seeded with the user identifier and verified email, adopts it, and — when
the insert reports success without returning the row — the single re-fetch
finds that same row. -/
theorem fetchProfile_creates_when_absent (db : ProfilesDb) (uid userEmail : String)
    (rr : Bool) (habs : findProfile db uid = none) :
    fetchProfile db uid userEmail rr =
      (dbAfterInsert db uid userEmail, some (insertedProfileRow db uid userEmail)) ∧
    ((dbAfterInsert db uid userEmail).rows.filter
      (fun p => p.user_id == uid)).length = 1 ∧
    (rr = false →
      findProfile (dbAfterInsert db uid userEmail) uid =
        some (insertedProfileRow db uid userEmail)) := by
  have hfil : db.rows.filter (fun p => p.user_id == uid) = [] := by
    unfold findProfile at habs
    exact List.head?_eq_none_iff.1 habs
  have hfil2 : ((dbAfterInsert db uid userEmail).rows.filter
      (fun p => p.user_id == uid)) = [insertedProfileRow db uid userEmail] := by
    unfold dbAfterInsert
    rw [List.filter_append, hfil]
    simp [insertedProfileRow]
  have hf2 : findProfile (dbAfterInsert db uid userEmail) uid =
      some (insertedProfileRow db uid userEmail) := by
    unfold findProfile
    simp only [hfil2]
    rfl
  refine ⟨?_, by rw [hfil2]; rfl, fun _ => hf2⟩
  unfold fetchProfile fetchProfileFuel
  rw [habs]
  unfold createProfileFuel
  cases rr with
  | true => rfl
  | false =>
    simp only [Bool.false_eq_true, if_false]
    unfold fetchProfileFuel
    rw [hf2]

/-- C4 witness: an empty table, on the path where the insert returns no row
and the re-fetch adopts the created row. -/
theorem fetchProfile_creates_when_absent_witness :
    findProfile { rows := [], nextId := 0 } "u" = none ∧
    fetchProfile { rows := [], nextId := 0 } "u" "e@x" false =
      (dbAfterInsert { rows := [], nextId := 0 } "u" "e@x",
       some (insertedProfileRow { rows := [], nextId := 0 } "u" "e@x")) := by
  exact ⟨rfl, (fetchProfile_creates_when_absent { rows := [], nextId := 0 } "u" "e@x"
    false rfl).1⟩

/-- C5: fetch-or-create for an already-existing user performs no insert (the
table is returned unchanged) and adopts the same row on a first and an
immediately repeated call. -/
theorem fetchProfile_idempotent (db : ProfilesDb) (uid userEmail : String) (rr : Bool)
    (p : Profile) (hex : findProfile db uid = some p) :
    fetchProfile db uid userEmail rr = (db, some p) ∧
    fetchProfile (fetchProfile db uid userEmail rr).1 uid userEmail rr = (db, some p) := by
  have h1 : fetchProfile db uid userEmail rr = (db, some p) := by
    unfold fetchProfile fetchProfileFuel
    rw [hex]
  refine ⟨h1, ?_⟩
  rw [h1]
  exact h1

/-- C5 witness: a table already holding the user's row. -/
theorem fetchProfile_idempotent_witness :
    findProfile ⟨[⟨3, "u", "e@x", none⟩], 7⟩ "u" = some ⟨3, "u", "e@x", none⟩ ∧
    (fetchProfile ⟨[⟨3, "u", "e@x", none⟩], 7⟩ "u" "other@x" true =
      (⟨[⟨3, "u", "e@x", none⟩], 7⟩, some ⟨3, "u", "e@x", none⟩) ∧
    fetchProfile (fetchProfile ⟨[⟨3, "u", "e@x", none⟩], 7⟩ "u" "other@x" true).1
        "u" "other@x" true =
      (⟨[⟨3, "u", "e@x", none⟩], 7⟩, some ⟨3, "u", "e@x", none⟩)) := by
  exact ⟨rfl, fetchProfile_idempotent ⟨[⟨3, "u", "e@x", none⟩], 7⟩
    "u" "other@x" true ⟨3, "u", "e@x", none⟩ rfl⟩

/-- The `foldl` computing the latest row only ever returns its seed or a list
element. -/
theorem foldl_pickLatest_mem (l : List OtpRecord) (a : OtpRecord) :
    l.foldl pickLatest a ∈ a :: l := by
  induction l generalizing a with
  | nil => simp
  | cons b bs ih =>
    have h := ih (pickLatest a b)
    simp only [List.foldl]
    rcases List.mem_cons.1 h with h1 | h1
    · rw [h1]
      unfold pickLatest
      split
      · exact List.mem_cons_of_mem _ (List.mem_cons_self _ _)
      · exact List.mem_cons_self _ _
    · exact List.mem_cons_of_mem _ (List.mem_cons_of_mem _ h1)

/-- The most recent row is a row of the list. -/
theorem mostRecentOtp_mem {l : List OtpRecord} {x : OtpRecord}
    (h : mostRecentOtp l = some x) : x ∈ l := by
  cases l with
  | nil => simp [mostRecentOtp] at h
  | cons r rs =>
    have hx : rs.foldl pickLatest r = x := by
      simpa [mostRecentOtp] using h
    rw [← hx]
    exact foldl_pickLatest_mem rs r

/-- A successful lookup returns an eligible row of the table. -/
theorem otpLookup_mem_elig {db : List OtpRecord} {uid t : String} {now : Nat}
    {x : OtpRecord} (h : otpLookup db uid t now = some x) :
    x ∈ db ∧ eligibleOtp uid t now x = true := by
  have := mostRecentOtp_mem (l := db.filter (eligibleOtp uid t now)) h
  exact ⟨(List.mem_filter.1 this).1, (List.mem_filter.1 this).2⟩

/-- A row of the updated table is either marked verified or an untouched row
of the original table with a different id. -/
theorem mem_markVerified {db : List OtpRecord} {i now : Nat} {x : OtpRecord}
    (hx : x ∈ markVerified db i now) :
    x.is_verified = true ∨ (x ∈ db ∧ (x.id == i) = false) := by
  unfold markVerified at hx
  rcases List.mem_map.1 hx with ⟨y, hy, hxy⟩
  by_cases h : (y.id == i) = true
  · left
    rw [← hxy]
    simp [h]
  · right
    have hb : (y.id == i) = false := by simpa using h
    rw [← hxy]
    simp [hb]
    exact hy

/-- Eligibility at a later clock implies eligibility at an earlier one. -/
theorem eligibleOtp_mono {uid t : String} {now now2 : Nat} {x : OtpRecord}
    (hle : now ≤ now2) (h : eligibleOtp uid t now2 x = true) :
    eligibleOtp uid t now x = true := by
  simp only [eligibleOtp, Bool.and_eq_true, decide_eq_true_eq] at h ⊢
  exact ⟨⟨⟨h.1.1.1, h.1.1.2⟩, by omega⟩, h.2⟩

/-- C1 (amended): with no eligible record the inner lookup fails with
`No valid OTP found` and the call reports `false`; when the supplied code
matches the eligible record, that record is marked verified with a timestamp
and the call reports success; and a second verification with the same code
then fails — provided the matched record was the only eligible one bearing
that code, since otherwise another eligible record with an equal code can
satisfy the second lookup. -/
theorem verifyOtp_single_use (uid t : String) (db : List OtpRecord) (now now2 : Nat)
    (otp : String) (hle : now ≤ now2) :
    (otpLookup db uid t now = none →
      verifyOtpInner uid db t now otp none = Except.error "No valid OTP found" ∧
      verifyOtp (some uid) db t now otp none = Except.ok (false, db)) ∧
    (∀ r, otpLookup db uid t now = some r → r.otp_code = otp →
      verifyOtp (some uid) db t now otp none = Except.ok (true, markVerified db r.id now) ∧
      (∀ x, x ∈ markVerified db r.id now → x.id = r.id →
        x.is_verified = true ∧ x.verified_at = some now) ∧
      ((∀ x, x ∈ db → eligibleOtp uid t now x = true → x.otp_code = otp → x.id = r.id) →
        verifyOtp (some uid) (markVerified db r.id now) t now2 otp none =
          Except.ok (false, markVerified db r.id now))) := by
  constructor
  · intro hnone
    have hinner : verifyOtpInner uid db t now otp none = Except.error "No valid OTP found" := by
      unfold verifyOtpInner
      rw [hnone]
    refine ⟨hinner, ?_⟩
    simp only [verifyOtp, hinner]
  · intro r hlook hcode
    have hbeq : (r.otp_code == otp) = true := beq_iff_eq.2 hcode
    have hinner : verifyOtpInner uid db t now otp none =
        Except.ok (true, markVerified db r.id now) := by
      unfold verifyOtpInner
      rw [hlook]
      simp [hbeq]
    refine ⟨by simp only [verifyOtp, hinner], ?_, ?_⟩
    · intro x hx hxid
      unfold markVerified at hx
      rcases List.mem_map.1 hx with ⟨y, hy, hxy⟩
      by_cases h : (y.id == r.id) = true
      · rw [← hxy]
        simp [h]
      · exfalso
        have hb : (y.id == r.id) = false := by simpa using h
        rw [← hxy] at hxid
        simp [hb] at hxid
        simp [hxid] at hb
    · intro huniq
      have key : ∀ x, x ∈ markVerified db r.id now → eligibleOtp uid t now2 x = true →
          (x.otp_code == otp) = false := by
        intro x hx he
        rcases mem_markVerified hx with hv | ⟨hxdb, hxid⟩
        · exfalso
          simp only [eligibleOtp, Bool.and_eq_true, beq_iff_eq] at he
          rw [hv] at he
          simp at he
        · by_contra hc
          have hc2 : (x.otp_code == otp) = true := by
            cases hq : (x.otp_code == otp) with
            | true => rfl
            | false => exact absurd hq hc
          have hxcode : x.otp_code = otp := beq_iff_eq.1 hc2
          have helig : eligibleOtp uid t now x = true := eligibleOtp_mono hle he
          have := huniq x hxdb helig hxcode
          rw [this] at hxid
          simp at hxid
      cases hl2 : otpLookup (markVerified db r.id now) uid t now2 with
      | none =>
        have hinner2 : verifyOtpInner uid (markVerified db r.id now) t now2 otp none =
            Except.error "No valid OTP found" := by
          unfold verifyOtpInner
          rw [hl2]
        simp only [verifyOtp, hinner2]
      | some r2 =>
        obtain ⟨hm, he⟩ := otpLookup_mem_elig hl2
        have hcf : (r2.otp_code == otp) = false := key r2 hm he
        have hinner2 : verifyOtpInner uid (markVerified db r.id now) t now2 otp none =
            Except.ok (false, markVerified db r.id now) := by
          unfold verifyOtpInner
          rw [hl2]
          simp [hcf]
        simp only [verifyOtp, hinner2]

/-- C1 counterexample: two eligible records for the same user and channel
carry the same code; verifying twice with that correct code succeeds both
times — the first marks the newer record, the second matches the older one —
so the claim's "fails the second time" does not hold as stated. -/
theorem verifyOtp_double_success_cex :
    verifyOtp (some "u")
        [⟨1, "u", none, none, "111111", "phone", 100, false, none, 1⟩,
         ⟨2, "u", none, none, "111111", "phone", 100, false, none, 2⟩]
        "phone" 0 "111111" none =
      Except.ok (true,
        [⟨1, "u", none, none, "111111", "phone", 100, false, none, 1⟩,
         ⟨2, "u", none, none, "111111", "phone", 100, true, some 0, 2⟩]) ∧
    verifyOtp (some "u")
        [⟨1, "u", none, none, "111111", "phone", 100, false, none, 1⟩,
         ⟨2, "u", none, none, "111111", "phone", 100, true, some 0, 2⟩]
        "phone" 0 "111111" none =
      Except.ok (true,
        [⟨1, "u", none, none, "111111", "phone", 100, true, some 0, 1⟩,
         ⟨2, "u", none, none, "111111", "phone", 100, true, some 0, 2⟩]) := by
  exact ⟨rfl, rfl⟩

/-- C1 witness: a single unexpired, unverified record with a unique code. -/
theorem verifyOtp_single_use_witness :
    0 ≤ 0 ∧
    ((otpLookup [⟨1, "u", none, none, "123456", "phone", 100, false, none, 5⟩] "u" "phone" 0 =
        none →
      verifyOtpInner "u" [⟨1, "u", none, none, "123456", "phone", 100, false, none, 5⟩]
          "phone" 0 "123456" none = Except.error "No valid OTP found" ∧
      verifyOtp (some "u") [⟨1, "u", none, none, "123456", "phone", 100, false, none, 5⟩]
          "phone" 0 "123456" none =
        Except.ok (false, [⟨1, "u", none, none, "123456", "phone", 100, false, none, 5⟩])) ∧
    (∀ r, otpLookup [⟨1, "u", none, none, "123456", "phone", 100, false, none, 5⟩]
          "u" "phone" 0 = some r →
      r.otp_code = "123456" →
      verifyOtp (some "u") [⟨1, "u", none, none, "123456", "phone", 100, false, none, 5⟩]
          "phone" 0 "123456" none =
        Except.ok (true,
          markVerified [⟨1, "u", none, none, "123456", "phone", 100, false, none, 5⟩] r.id 0) ∧
      (∀ x, x ∈ markVerified [⟨1, "u", none, none, "123456", "phone", 100, false, none, 5⟩]
            r.id 0 →
        x.id = r.id → x.is_verified = true ∧ x.verified_at = some 0) ∧
      ((∀ x, x ∈ [⟨1, "u", none, none, "123456", "phone", 100, false, none, 5⟩] →
          eligibleOtp "u" "phone" 0 x = true → x.otp_code = "123456" → x.id = r.id) →
        verifyOtp (some "u")
            (markVerified [⟨1, "u", none, none, "123456", "phone", 100, false, none, 5⟩] r.id 0)
            "phone" 0 "123456" none =
          Except.ok (false,
            markVerified [⟨1, "u", none, none, "123456", "phone", 100, false, none, 5⟩]
              r.id 0)))) := by
  exact ⟨Nat.le_refl 0, verifyOtp_single_use "u" "phone"
    [⟨1, "u", none, none, "123456", "phone", 100, false, none, 5⟩] 0 0 "123456" (Nat.le_refl 0)⟩

end CusOnboard
